import Mathlib

/-!
Verification development for the Florida payroll engine
(`app/services/payroll.py`, `app/services/tax_validation.py`).

Monetary amounts are modelled as exact rationals (`ℚ`); Python's
`round(x, 2)` is modelled as exact round-half-to-even of `100 * x`
followed by division by 100, matching CPython's documented behaviour
on the ideal (infinitely precise) value.
-/

namespace Payroll

/-- Filing statuses: the closed three-element set `FILING_STATUS_KEYS`. -/
inductive FilingStatus where
  | single_or_married_filing_separately
  | married_filing_jointly
  | head_of_household
deriving DecidableEq

/-- Pay frequencies: the keys of `PERIODS_PER_YEAR`. -/
inductive PayFrequency where
  | daily
  | weekly
  | biweekly
  | semimonthly
  | monthly
deriving DecidableEq

/-- `PERIODS_PER_YEAR` from `payroll.py` lines 11-17. -/
def PERIODS_PER_YEAR : PayFrequency → ℕ
  | .daily => 260
  | .weekly => 52
  | .biweekly => 26
  | .semimonthly => 24
  | .monthly => 12

/-- String form of a pay frequency (used in the trace's file list). -/
def payFreqString : PayFrequency → String
  | .daily => "daily"
  | .weekly => "weekly"
  | .biweekly => "biweekly"
  | .semimonthly => "semimonthly"
  | .monthly => "monthly"

/-- Round-half-to-even to the nearest integer, as Python's builtin
`round` behaves on an exact value. -/
def roundHalfEven (q : ℚ) : ℤ :=
  let f := ⌊q⌋
  let r := q - f
  if r < 1/2 then f
  else if 1/2 < r then f + 1
  else if f % 2 = 0 then f else f + 1

/-- `round2` from `payroll.py` lines 29-30: `round(value + 1e-9, 2)`. -/
def round2 (value : ℚ) : ℚ :=
  ((roundHalfEven (100 * (value + 1/1000000000)) : ℚ)) / 100

/-- One entry of a FIT bracket list: `{"up_to": ..., "rate": ...}`,
`up_to = none` meaning the unbounded last bracket (`null` in JSON). -/
structure Bracket where
  up_to : Option ℚ
  rate : ℚ
deriving DecidableEq

/-- The loop body of `_annual_fit_from_brackets` (`payroll.py` lines 86-101),
carrying the running `lower` bound and `remaining` income.  The
`if remaining - taxed ≤ 0 then 0` branch is the early `break`; an
unbounded bracket likewise stops the walk. -/
def fitLoop (lower remaining : ℚ) : List Bracket → ℚ
  | [] => 0
  | b :: rest =>
    match b.up_to with
    | none => max 0 remaining * b.rate
    | some upper =>
      let width := max 0 (upper - lower)
      let taxed := min (max 0 remaining) width
      taxed * b.rate +
        (if remaining - taxed ≤ 0 then 0 else fitLoop upper (remaining - taxed) rest)

/-- `_annual_fit_from_brackets` from `payroll.py` lines 85-102. -/
def annual_fit_from_brackets (taxable_income : ℚ) (brackets : List Bracket) : ℚ :=
  max 0 (fitLoop 0 taxable_income brackets)

/-- Modelled from the spec (§4.3): the reference marginal-rate computation —
each bracket taxes the portion of income falling within
`[lower_bound, upper_bound)` at its marginal rate, the last (unbounded)
bracket absorbing all remaining income. -/
def spec_marginal_fit_go (lower x : ℚ) : List Bracket → ℚ
  | [] => 0
  | b :: rest =>
    match b.up_to with
    | none => b.rate * max 0 (x - lower)
    | some upper => b.rate * max 0 (min x upper - lower) + spec_marginal_fit_go upper x rest

/-- Modelled from the spec (§4.3): reference marginal-rate annual tax. -/
def spec_marginal_fit (x : ℚ) (brackets : List Bracket) : ℚ :=
  spec_marginal_fit_go 0 x brackets

/-- The bracket list is contiguous/ascending from `lower` and its last
bracket is the unique unbounded one. -/
def bracketsWF (lower : ℚ) : List Bracket → Bool
  | [] => false
  | b :: rest =>
    match b.up_to with
    | none => rest.isEmpty
    | some upper => decide (lower ≤ upper) && bracketsWF upper rest

/-- All bracket rates are nonnegative. -/
def ratesNonneg (brackets : List Bracket) : Bool :=
  brackets.all fun b => decide (0 ≤ b.rate)

/-- Per-status FIT table: `standard_deduction` and `brackets`. -/
structure FitStatusCfg where
  standard_deduction : ℚ
  brackets : List Bracket

/-- `rates["social_security"]`. -/
structure SocialSecurityCfg where
  employee_rate : ℚ
  employer_rate : ℚ
  wage_base : ℚ

/-- `rates["medicare"]`, with the per-filing-status additional threshold. -/
structure MedicareCfg where
  employee_rate : ℚ
  employer_rate : ℚ
  additional_employee_rate : ℚ
  additional_threshold : FilingStatus → ℚ

/-- `rates["futa"]`. -/
structure FutaCfg where
  employer_rate : ℚ
  wage_base : ℚ

/-- `metadata.json` fields the calculation trace records. -/
structure Metadata where
  source : Option String
  version : Option String
deriving DecidableEq

/-- The `rates.json` contents used by `calculate_monthly_payroll`. -/
structure TaxYearRates where
  social_security : SocialSecurityCfg
  medicare : MedicareCfg
  futa : FutaCfg
  suta_wage_base : ℚ

/-- A loaded tax year: `rates`, per-status FIT tables, metadata. -/
structure TaxYearData where
  metadata : Metadata
  rates : TaxYearRates
  fit : FilingStatus → FitStatusCfg

/-- The `Employee` fields read by `calculate_monthly_payroll`
(`app/models.py` lines 47-53). -/
structure Employee where
  filing_status : FilingStatus
  pay_frequency : PayFrequency
  monthly_salary : ℚ
  w4_dependents_amount : ℚ
  w4_other_income : ℚ
  w4_deductions : ℚ
  w4_extra_withholding : ℚ

/-- All arguments of `calculate_monthly_payroll` (`payroll.py` lines 105-116),
with the tax tables already loaded. -/
structure CalcInputs where
  employee : Employee
  year : ℤ
  tax_data : TaxYearData
  bonus : ℚ
  reimbursements : ℚ
  deductions : ℚ
  ytd_ss_wages : ℚ
  ytd_medicare_wages : ℚ
  ytd_futa_wages : ℚ
  ytd_suta_wages : ℚ
  company_suta_rate_decimal : ℚ

/-- `gross = max(0.0, employee.monthly_salary + bonus + reimbursements)` (line 132). -/
def gross (a : CalcInputs) : ℚ :=
  max 0 (a.employee.monthly_salary + a.bonus + a.reimbursements)

/-- `taxable_wages = max(0.0, gross - deductions)` (line 133). -/
def taxable_wages (a : CalcInputs) : ℚ :=
  max 0 (gross a - a.deductions)

/-- `annualized` (line 135). -/
def annualized (a : CalcInputs) : ℚ :=
  taxable_wages a * (PERIODS_PER_YEAR a.employee.pay_frequency : ℚ)
    + a.employee.w4_other_income - a.employee.w4_deductions

/-- `fit_taxable` (line 136). -/
def fit_taxable (a : CalcInputs) : ℚ :=
  max 0 (annualized a - (a.tax_data.fit a.employee.filing_status).standard_deduction)

/-- `fit_annual_before_credits` (line 137). -/
def fit_annual_before_credits (a : CalcInputs) : ℚ :=
  annual_fit_from_brackets (fit_taxable a) (a.tax_data.fit a.employee.filing_status).brackets

/-- `fit_annual_after_step3` (line 138). -/
def fit_annual_after_step3 (a : CalcInputs) : ℚ :=
  max 0 (fit_annual_before_credits a - a.employee.w4_dependents_amount)

/-- `federal` (line 139): no flooring is applied after adding the extra withholding. -/
def federal (a : CalcInputs) : ℚ :=
  fit_annual_after_step3 a / (PERIODS_PER_YEAR a.employee.pay_frequency : ℚ)
    + a.employee.w4_extra_withholding

/-- `ss_remaining` (line 141). -/
def ss_remaining (a : CalcInputs) : ℚ :=
  max 0 (a.tax_data.rates.social_security.wage_base - a.ytd_ss_wages)

/-- `ss_taxable` (line 142). -/
def ss_taxable (a : CalcInputs) : ℚ :=
  min (ss_remaining a) (taxable_wages a)

/-- `social_security_ee` before rounding (line 143). -/
def social_security_ee (a : CalcInputs) : ℚ :=
  ss_taxable a * a.tax_data.rates.social_security.employee_rate

/-- `social_security_er` before rounding (line 144). -/
def social_security_er (a : CalcInputs) : ℚ :=
  ss_taxable a * a.tax_data.rates.social_security.employer_rate

/-- `medicare_ee` before rounding (line 146). -/
def medicare_ee (a : CalcInputs) : ℚ :=
  taxable_wages a * a.tax_data.rates.medicare.employee_rate

/-- `medicare_er` before rounding (line 147). -/
def medicare_er (a : CalcInputs) : ℚ :=
  taxable_wages a * a.tax_data.rates.medicare.employer_rate

/-- `additional_threshold` (line 148). -/
def additional_threshold (a : CalcInputs) : ℚ :=
  a.tax_data.rates.medicare.additional_threshold a.employee.filing_status

/-- `addl_base` (line 149). -/
def addl_base (a : CalcInputs) : ℚ :=
  max 0 (a.ytd_medicare_wages + taxable_wages a - additional_threshold a)
    - max 0 (a.ytd_medicare_wages - additional_threshold a)

/-- `additional_medicare_ee` before rounding (line 150). -/
def additional_medicare_ee (a : CalcInputs) : ℚ :=
  max 0 (addl_base a) * a.tax_data.rates.medicare.additional_employee_rate

/-- `futa_remaining` (line 152). -/
def futa_remaining (a : CalcInputs) : ℚ :=
  max 0 (a.tax_data.rates.futa.wage_base - a.ytd_futa_wages)

/-- `futa_taxable` (line 153). -/
def futa_taxable (a : CalcInputs) : ℚ :=
  min (futa_remaining a) (taxable_wages a)

/-- `futa_er` before rounding (line 154). -/
def futa_er (a : CalcInputs) : ℚ :=
  futa_taxable a * a.tax_data.rates.futa.employer_rate

/-- `suta_remaining` (line 156). -/
def suta_remaining (a : CalcInputs) : ℚ :=
  max 0 (a.tax_data.rates.suta_wage_base - a.ytd_suta_wages)

/-- `suta_taxable` (line 157). -/
def suta_taxable (a : CalcInputs) : ℚ :=
  min (suta_remaining a) (taxable_wages a)

/-- `suta_er` before rounding (line 158). -/
def suta_er (a : CalcInputs) : ℚ :=
  suta_taxable a * a.company_suta_rate_decimal

/-- `employee_taxes` (line 160). -/
def employee_taxes (a : CalcInputs) : ℚ :=
  federal a + social_security_ee a + medicare_ee a + additional_medicare_ee a

/-- `net` before rounding (line 161). -/
def net (a : CalcInputs) : ℚ :=
  gross a - employee_taxes a - a.deductions

/-- `trace["inputs"]["gross_components"]` (lines 171-175). -/
structure TraceGrossComponents where
  base_salary_amount : ℚ
  bonus : ℚ
  reimbursements : ℚ
deriving DecidableEq

/-- `trace["inputs"]["w4"]` (lines 177-183). -/
structure TraceW4 where
  filing_status : FilingStatus
  dependents_amount : ℚ
  other_income : ℚ
  deductions : ℚ
  extra_withholding : ℚ
deriving DecidableEq

/-- `trace["inputs"]["ytd"]` (lines 184-189). -/
structure TraceYtd where
  ss_wages : ℚ
  medicare_wages : ℚ
  futa_wages : ℚ
  suta_wages : ℚ
deriving DecidableEq

/-- `trace["inputs"]` (lines 168-190). -/
structure TraceInputs where
  pay_frequency : PayFrequency
  periods_per_year : ℕ
  gross_components : TraceGrossComponents
  deductions : ℚ
  w4 : TraceW4
  ytd : TraceYtd
deriving DecidableEq

/-- `trace["steps"]` (lines 191-207). -/
structure TraceSteps where
  gross_pay : ℚ
  taxable_wages : ℚ
  fit_annualized_wages : ℚ
  fit_taxable_annual_wages : ℚ
  fit_annual_tax_before_credits : ℚ
  fit_annual_tax_after_step3_credit : ℚ
  fit_period_withholding : ℚ
  ss_taxable_wages : ℚ
  medicare_taxable_wages : ℚ
  additional_medicare_taxable_wages : ℚ
  futa_taxable_wages : ℚ
  suta_taxable_wages : ℚ
  ss_wage_base_remaining : ℚ
  futa_wage_base_remaining : ℚ
  suta_wage_base_remaining : ℚ
deriving DecidableEq

/-- The calculation trace (lines 163-209). -/
structure CalculationTrace where
  tax_year : ℤ
  source : Option String
  version : Option String
  files : List String
  inputs : TraceInputs
  steps : TraceSteps
deriving DecidableEq

/-- The dict returned by `calculate_monthly_payroll` (lines 211-223). -/
structure PayrollResult where
  gross_pay : ℚ
  federal_withholding : ℚ
  social_security_ee : ℚ
  medicare_ee : ℚ
  additional_medicare_ee : ℚ
  social_security_er : ℚ
  medicare_er : ℚ
  futa_er : ℚ
  suta_er : ℚ
  net_pay : ℚ
  calculation_trace : CalculationTrace

/-- The three file paths recorded in `trace["files"]` (lines 77-81, 167). -/
def trace_files (a : CalcInputs) : List String :=
  ["data/tax/" ++ toString a.year ++ "/metadata.json",
   "data/tax/" ++ toString a.year ++ "/rates.json",
   "data/tax/" ++ toString a.year ++ "/fit/" ++ payFreqString a.employee.pay_frequency
     ++ "/percentage_method.json"]

/-- `calculate_monthly_payroll` (`payroll.py` lines 105-223), assembled
from the step definitions above after the tax tables were loaded. -/
def calculate_monthly_payroll (a : CalcInputs) : PayrollResult :=
  { gross_pay := round2 (gross a)
    federal_withholding := round2 (federal a)
    social_security_ee := round2 (social_security_ee a)
    medicare_ee := round2 (medicare_ee a)
    additional_medicare_ee := round2 (additional_medicare_ee a)
    social_security_er := round2 (social_security_er a)
    medicare_er := round2 (medicare_er a)
    futa_er := round2 (futa_er a)
    suta_er := round2 (suta_er a)
    net_pay := round2 (net a)
    calculation_trace :=
      { tax_year := a.year
        source := a.tax_data.metadata.source
        version := a.tax_data.metadata.version
        files := trace_files a
        inputs :=
          { pay_frequency := a.employee.pay_frequency
            periods_per_year := PERIODS_PER_YEAR a.employee.pay_frequency
            gross_components :=
              { base_salary_amount := a.employee.monthly_salary
                bonus := a.bonus
                reimbursements := a.reimbursements }
            deductions := a.deductions
            w4 :=
              { filing_status := a.employee.filing_status
                dependents_amount := a.employee.w4_dependents_amount
                other_income := a.employee.w4_other_income
                deductions := a.employee.w4_deductions
                extra_withholding := a.employee.w4_extra_withholding }
            ytd :=
              { ss_wages := a.ytd_ss_wages
                medicare_wages := a.ytd_medicare_wages
                futa_wages := a.ytd_futa_wages
                suta_wages := a.ytd_suta_wages } }
        steps :=
          { gross_pay := gross a
            taxable_wages := taxable_wages a
            fit_annualized_wages := annualized a
            fit_taxable_annual_wages := fit_taxable a
            fit_annual_tax_before_credits := fit_annual_before_credits a
            fit_annual_tax_after_step3_credit := fit_annual_after_step3 a
            fit_period_withholding := federal a
            ss_taxable_wages := ss_taxable a
            medicare_taxable_wages := taxable_wages a
            additional_medicare_taxable_wages := addl_base a
            futa_taxable_wages := futa_taxable a
            suta_taxable_wages := suta_taxable a
            ss_wage_base_remaining := ss_remaining a
            futa_wage_base_remaining := futa_remaining a
            suta_wage_base_remaining := suta_remaining a } } }

/-! ### JSON-level model for `load_tax_year_data` and the validator -/

/-- A JSON value, as produced by `json.load`. -/
inductive Json where
  | null
  | bool (b : Bool)
  | num (q : ℚ)
  | str (s : String)
  | arr (items : List Json)
  | obj (entries : List (String × Json))

mutual

/-- Structural equality of JSON values (Python `==` on parsed JSON). -/
def Json.beq : Json → Json → Bool
  | .null, .null => true
  | .bool a, .bool b => a == b
  | .num a, .num b => a == b
  | .str a, .str b => a == b
  | .arr xs, .arr ys => Json.beqList xs ys
  | .obj xs, .obj ys => Json.beqObj xs ys
  | _, _ => false

/-- Elementwise equality of JSON arrays. -/
def Json.beqList : List Json → List Json → Bool
  | [], [] => true
  | x :: xs, y :: ys => Json.beq x y && Json.beqList xs ys
  | _, _ => false

/-- Entrywise equality of JSON objects. -/
def Json.beqObj : List (String × Json) → List (String × Json) → Bool
  | [], [] => true
  | (k1, v1) :: xs, (k2, v2) :: ys => k1 == k2 && Json.beq v1 v2 && Json.beqObj xs ys
  | _, _ => false

end

instance : BEq Json := ⟨Json.beq⟩

/-- Dictionary lookup, `d[key]` / `d.get(key)`: `none` off objects or absent keys. -/
def Json.lookup : Json → String → Option Json
  | .obj entries, key => entries.lookup key
  | _, _ => none

/-- `key in d`. -/
def Json.hasKey (j : Json) (key : String) : Bool :=
  (j.lookup key).isSome

/-- `FILING_STATUS_KEYS` (`payroll.py` lines 18-22) as the key strings. -/
def FILING_STATUS_KEYS : List String :=
  ["single_or_married_filing_separately", "married_filing_jointly", "head_of_household"]

/-- `required_keys` checked against `rates.json` (`payroll.py` line 60). -/
def REQUIRED_RATE_KEYS : List String :=
  ["social_security", "medicare", "futa", "suta"]

/-- A filing status has a FIT table with both required fields
(the loop body condition of `payroll.py` lines 65-70). -/
def status_ok (fit : Json) (status : String) : Bool :=
  match fit.lookup status with
  | none => false
  | some status_cfg => status_cfg.hasKey "standard_deduction" && status_cfg.hasKey "brackets"

/-- The per-status check loop of `load_tax_year_data` (`payroll.py` lines 65-70):
raises on the first missing or structurally invalid status table. -/
def check_statuses (fit : Json) : List String → Except String Unit
  | [] => .ok ()
  | status :: rest =>
    match fit.lookup status with
    | none => .error ("Missing FIT table for filing status " ++ status)
    | some status_cfg =>
      if status_cfg.hasKey "standard_deduction" && status_cfg.hasKey "brackets" then
        check_statuses fit rest
      else .error ("Invalid FIT table for filing status " ++ status)

/-- The dict returned by `load_tax_year_data` (`payroll.py` lines 72-82). -/
structure LoadedTaxData where
  year : ℤ
  metadata : Json
  rates : Json
  fit : Json
  files : List String

/-- `load_tax_year_data` (`payroll.py` lines 50-82).  The three `Option Json`
arguments are the parsed contents of `rates.json`, `metadata.json` and
`fit/{pay_frequency}/percentage_method.json`, `none` meaning the file does not
exist (in which case `_read_json`, lines 33-38, raises `TaxConfigError`,
modelled as `Except.error`).  Files are read in source order: rates,
metadata, fit. -/
def load_tax_year_data (year : ℤ) (pay_frequency : String)
    (rates_file metadata_file fit_file : Option Json) : Except String LoadedTaxData :=
  match rates_file with
  | none => .error "Tax tables are missing: rates.json"
  | some rates =>
    match metadata_file with
    | none => .error "Tax tables are missing: metadata.json"
    | some metadata =>
      match fit_file with
      | none => .error "Tax tables are missing: percentage_method.json"
      | some fit =>
        let missing := REQUIRED_RATE_KEYS.filter fun key => !(rates.hasKey key)
        if missing.isEmpty then
          match check_statuses fit FILING_STATUS_KEYS with
          | .error e => .error e
          | .ok _ =>
            .ok { year := year
                  metadata := metadata
                  rates := rates
                  fit := fit
                  files := ["data/tax/" ++ toString year ++ "/metadata.json",
                            "data/tax/" ++ toString year ++ "/rates.json",
                            "data/tax/" ++ toString year ++ "/fit/" ++ pay_frequency
                              ++ "/percentage_method.json"] }
        else .error ("Missing tax configuration keys for " ++ toString year)

/-- A loaded configuration is structurally complete: all four required rate
keys are present, and every supported filing status has a FIT table with
both `standard_deduction` and `brackets`. -/
def complete_config (cfg : LoadedTaxData) : Bool :=
  REQUIRED_RATE_KEYS.all cfg.rates.hasKey && FILING_STATUS_KEYS.all (status_ok cfg.fit)

/-! ### Model of `validate_tax_year_data` (`tax_validation.py`) -/

/-- Outcome of opening and parsing one JSON file. -/
inductive FileRead where
  | missing
  | badJson
  | parsed (j : Json)

/-- The filesystem state `validate_tax_year_data` consults for one year. -/
structure ValidationWorld where
  metadata_file : FileRead
  rates_file : FileRead
  validation_file : FileRead
  fit_exists : PayFrequency → Bool

/-- `ValidationResult` (`tax_validation.py` lines 11-16); the free-form
`details` dict carries no validation outcome and is omitted. -/
structure ValidationResult where
  ok : Bool
  errors : List String
  warnings : List String
deriving DecidableEq

/-- `ValidationResult.add_error` (lines 18-20): records the message and
forces `ok` to `false`. -/
def ValidationResult.add_error (r : ValidationResult) (message : String) : ValidationResult :=
  { r with ok := false, errors := r.errors ++ [message] }

/-- `ValidationResult.add_warning` (lines 22-23): records the message only. -/
def ValidationResult.add_warning (r : ValidationResult) (message : String) : ValidationResult :=
  { r with warnings := r.warnings ++ [message] }

/-- `_read_json` of `tax_validation.py` (lines 37-45): returns the parsed
value, or records an error and returns `none`. -/
def val_read (f : FileRead) (r : ValidationResult) (missingMsg badMsg : String) :
    Option Json × ValidationResult :=
  match f with
  | .parsed j => (some j, r)
  | .missing => (none, r.add_error missingMsg)
  | .badJson => (none, r.add_error badMsg)

/-- `str(metadata.get("notes", "")).lower()` for the values this repo's data
uses, as a character list: a string note is lowercased, an absent note
stringifies to the empty string (non-string notes are not exercised by any
theorem below). -/
def notes_lower (md : Json) : List Char :=
  match md.lookup "notes" with
  | some (.str s) => s.data.map Char.toLower
  | _ => []

/-- The character list `s` starts with the pattern `pat`. -/
def chars_start (s pat : List Char) : Bool :=
  match pat, s with
  | [], _ => true
  | _ :: _, [] => false
  | p :: ps, c :: cs => p == c && chars_start cs ps

/-- `pat in s` on character lists (Python substring containment). -/
def chars_contain (pat : List Char) : List Char → Bool
  | [] => chars_start [] pat
  | c :: rest => chars_start (c :: rest) pat || chars_contain pat rest

/-- `"percentage" in s`. -/
def contains_percentage (s : List Char) : Bool :=
  chars_contain "percentage".data s

/-- The metadata checks of `validate_tax_year_data` (lines 59-76).  Note
lines 66-67: a missing `tax_year` key is recorded via `add_warning` while
`ok` is nevertheless forced to `false`. -/
def check_metadata (year : ℤ) (md : Json) (r : ValidationResult) : ValidationResult :=
  let missing_fields := ["source", "version", "last_updated", "notes"].filter
    fun f => !(md.hasKey f)
  let r1 := if missing_fields.isEmpty then r
    else r.add_error "metadata.json is missing required fields"
  let r2 :=
    if !(md.hasKey "tax_year") then
      { r1.add_warning "metadata.json is missing required field tax_year" with ok := false }
    else if md.lookup "tax_year" != some (Json.num (year : ℚ)) then
      r1.add_error "metadata.json tax_year mismatch"
    else r1
  let method := md.lookup "method"
  if !(method == some (Json.str "percentage") || method == some (Json.str "wage_bracket")) then
    r2.add_error "metadata.json method must be one of: percentage, wage_bracket"
  else if contains_percentage (notes_lower md) && !(method == some (Json.str "percentage")) then
    r2.add_error "metadata.json method must be percentage when notes indicate percentage tables"
  else r2

/-- The per-frequency FIT file existence loop (lines 82-87), in
`PERIODS_PER_YEAR` insertion order. -/
def fit_file_errors (w : ValidationWorld) (r : ValidationResult) : ValidationResult :=
  [PayFrequency.daily, .weekly, .biweekly, .semimonthly, .monthly].foldl
    (fun acc freq =>
      if w.fit_exists freq then acc
      else acc.add_error ("Missing FIT percentage tables at fit/" ++ payFreqString freq
        ++ "/percentage_method.json"))
    r

/-- `validate_tax_year_data` (`tax_validation.py` lines 48-95). -/
def validate_tax_year_data (year : ℤ) (w : ValidationWorld) : ValidationResult :=
  let r0 : ValidationResult := ⟨true, [], []⟩
  let m1 := val_read w.metadata_file r0
    "Missing required file for tax year validation: metadata.json"
    "Invalid JSON in metadata.json"
  let m2 := val_read w.rates_file m1.2
    "Missing required file for tax year validation: rates.json"
    "Invalid JSON in rates.json"
  let m3 := val_read w.validation_file m2.2
    "Missing required file for tax year validation: validation.json"
    "Invalid JSON in validation.json"
  let r4 := match m1.1 with
    | none => m3.2
    | some md => check_metadata year md m3.2
  let r5 := match m3.1 with
    | none => r4
    | some v =>
      if v.lookup "tax_year" != some (Json.num (year : ℚ)) then
        r4.add_error "validation.json tax_year mismatch"
      else r4
  fit_file_errors w r5

/-! ### Concrete sample data for witnesses and counterexamples -/

/-- A small well-formed bracket table (three ascending brackets, last unbounded). -/
def sampleBrackets : List Bracket :=
  [⟨some 17000, 1/10⟩, ⟨some 69000, 12/100⟩, ⟨none, 22/100⟩]

/-- A sample per-status FIT configuration. -/
def sampleFit : FitStatusCfg :=
  { standard_deduction := 15000, brackets := sampleBrackets }

/-- A sample tax year configuration with 2026-like parameters. -/
def sampleData : TaxYearData :=
  { metadata := { source := some "IRS Pub 15-T", version := some "1" }
    rates :=
      { social_security := { employee_rate := 62/1000, employer_rate := 62/1000, wage_base := 176100 }
        medicare :=
          { employee_rate := 145/10000, employer_rate := 145/10000
            additional_employee_rate := 9/1000, additional_threshold := fun _ => 200000 }
        futa := { employer_rate := 6/1000, wage_base := 7000 }
        suta_wage_base := 7000 }
    fit := fun _ => sampleFit }

/-- A sample monthly employee. -/
def sampleEmployee : Employee :=
  { filing_status := .single_or_married_filing_separately
    pay_frequency := .monthly
    monthly_salary := 6000
    w4_dependents_amount := 0
    w4_other_income := 0
    w4_deductions := 0
    w4_extra_withholding := 0 }

/-- Baseline calculation inputs: $6000 monthly salary, all YTD zero. -/
def sampleInputs : CalcInputs :=
  { employee := sampleEmployee
    year := 2026
    tax_data := sampleData
    bonus := 0
    reimbursements := 0
    deductions := 0
    ytd_ss_wages := 0
    ytd_medicare_wages := 0
    ytd_futa_wages := 0
    ytd_suta_wages := 0
    company_suta_rate_decimal := 27/1000 }

/-- Inputs whose Social Security YTD already exceeds the wage base. -/
def cexCapInputs : CalcInputs :=
  { sampleInputs with ytd_ss_wages := 200000 }

/-- Inputs with YTD accumulators at each wage base exactly (cap exhausted). -/
def capExhaustedInputs : CalcInputs :=
  { sampleInputs with ytd_ss_wages := 176100, ytd_futa_wages := 7000, ytd_suta_wages := 7000 }

/-- Inputs whose Medicare YTD is above the additional threshold. -/
def aboveThresholdInputs : CalcInputs :=
  { sampleInputs with ytd_medicare_wages := 250000 }

/-- Inputs with zero salary and a negative extra withholding amount. -/
def cex5Inputs : CalcInputs :=
  { sampleInputs with
    employee := { sampleEmployee with monthly_salary := 0, w4_extra_withholding := -50 } }

/-- The sample configuration with only the Social Security employee rate
changed: the calculation trace records no tax rate, so this produces the
same trace as `sampleData`. -/
def cex8Data : TaxYearData :=
  { sampleData with
    rates :=
      { sampleData.rates with
        social_security :=
          { sampleData.rates.social_security with employee_rate := 7/100 } } }

/-- `sampleInputs` against `cex8Data`. -/
def cex8Inputs : CalcInputs :=
  { sampleInputs with tax_data := cex8Data }

/-- A bracket table (ascending, nonnegative rates) on which the marginal tax
at 30 equals the middle bracket's rate times the whole amount. -/
def cex4Brackets : List Bracket :=
  [⟨some 10, 1/10⟩, ⟨some 20, 2/10⟩, ⟨none, 3/10⟩]

/-- An ascending bracket table with a negative top rate: the annual tax is
not monotone on it. -/
def cex9Brackets : List Bracket :=
  [⟨some 10, 1/2⟩, ⟨none, -1/10⟩]

/-- A structurally valid `rates.json` object. -/
def goodRates : Json :=
  .obj [("social_security", .obj []), ("medicare", .obj []),
        ("futa", .obj []), ("suta", .obj [])]

/-- A FIT table entry with both required fields. -/
def goodStatusCfg : Json :=
  .obj [("standard_deduction", .num 15000), ("brackets", .arr [])]

/-- A structurally valid `percentage_method.json` object. -/
def goodFit : Json :=
  .obj [("single_or_married_filing_separately", goodStatusCfg),
        ("married_filing_jointly", goodStatusCfg),
        ("head_of_household", goodStatusCfg)]

/-- A `metadata.json` with all four required fields, a valid method, matching
notes — but no `tax_year` key. -/
def bugMetadata : Json :=
  .obj [("source", .str "IRS Pub 15-T"), ("version", .str "1"),
        ("last_updated", .str "2025-01-01"), ("notes", .str "Percentage method tables"),
        ("method", .str "percentage")]

/-- A `validation.json` whose declared tax year matches 2025. -/
def bugValidation : Json :=
  .obj [("tax_year", .num 2025), ("standard_deduction", .obj []),
        ("bracket_thresholds", .obj [])]

/-- The world exhibiting the validator bug: everything is present and
consistent except that `metadata.json` lacks `tax_year`. -/
def bugWorld : ValidationWorld :=
  { metadata_file := .parsed bugMetadata
    rates_file := .parsed (.obj [])
    validation_file := .parsed bugValidation
    fit_exists := fun _ => true }

/-! ### Helper lemmas -/

theorem gross_nonneg (a : CalcInputs) : 0 ≤ gross a :=
  le_max_left 0 _

theorem taxable_wages_nonneg (a : CalcInputs) : 0 ≤ taxable_wages a :=
  le_max_left 0 _

theorem periods_pos (f : PayFrequency) : (0 : ℚ) < (PERIODS_PER_YEAR f : ℚ) := by
  cases f <;> norm_num [PERIODS_PER_YEAR]

theorem roundHalfEven_eq_of_lt_half (q : ℚ) (m : ℤ) (h1 : (m : ℚ) ≤ q)
    (h2 : q < m + 1/2) : roundHalfEven q = m := by
  have hf : ⌊q⌋ = m := by
    rw [Int.floor_eq_iff]
    refine ⟨h1, ?_⟩
    linarith
  simp only [roundHalfEven, hf]
  rw [if_pos (by linarith : q - (m : ℚ) < 1/2)]

theorem roundHalfEven_eq_of_half_lt (q : ℚ) (m : ℤ) (h1 : (m : ℚ) + 1/2 < q)
    (h2 : q < m + 1) : roundHalfEven q = m + 1 := by
  have hf : ⌊q⌋ = m := by
    rw [Int.floor_eq_iff]
    refine ⟨by linarith, ?_⟩
    linarith
  simp only [roundHalfEven, hf]
  rw [if_neg (by linarith : ¬ q - (m : ℚ) < 1/2), if_pos (by linarith : 1/2 < q - (m : ℚ))]

theorem round2_eq_of_lt_half (v : ℚ) (m : ℤ) (h1 : (m : ℚ) ≤ 100 * (v + 1/1000000000))
    (h2 : 100 * (v + 1/1000000000) < m + 1/2) : round2 v = (m : ℚ) / 100 := by
  rw [round2, roundHalfEven_eq_of_lt_half _ m h1 h2]

theorem round2_eq_of_half_lt (v : ℚ) (m : ℤ) (h1 : (m : ℚ) + 1/2 < 100 * (v + 1/1000000000))
    (h2 : 100 * (v + 1/1000000000) < m + 1) : round2 v = ((m : ℚ) + 1) / 100 := by
  rw [round2, roundHalfEven_eq_of_half_lt _ m h1 h2]
  push_cast
  ring

theorem roundHalfEven_nonneg (q : ℚ) (h : 0 ≤ q) : 0 ≤ roundHalfEven q := by
  have hf : 0 ≤ ⌊q⌋ := Int.floor_nonneg.mpr h
  simp only [roundHalfEven]
  split_ifs <;> omega

theorem round2_nonneg (v : ℚ) (h : 0 ≤ v) : 0 ≤ round2 v := by
  have harg : 0 ≤ 100 * (v + 1/1000000000) := by linarith
  have := roundHalfEven_nonneg _ harg
  unfold round2
  positivity

theorem round2_zero : round2 0 = 0 := by
  rw [round2_eq_of_lt_half 0 0 (by norm_num) (by norm_num)]
  norm_num

theorem capped_add_le (base ytd tw : ℚ) (h : ytd ≤ base) :
    min (max 0 (base - ytd)) tw + ytd ≤ base := by
  have h1 : min (max 0 (base - ytd)) tw ≤ base - ytd := by
    calc min (max 0 (base - ytd)) tw ≤ max 0 (base - ytd) := min_le_left _ _
    _ = base - ytd := max_eq_right (sub_nonneg.mpr h)
  linarith

theorem capped_eq_zero (base ytd tw : ℚ) (htw : 0 ≤ tw) (h : base ≤ ytd) :
    min (max 0 (base - ytd)) tw = 0 := by
  rw [max_eq_left (sub_nonpos.mpr h), min_eq_left htw]

/-! ### Claim theorems -/

/-- Claim C10: inside `calculate_monthly_payroll` the computed gross equals
`max(0, monthly_salary + bonus + reimbursements)`, the `gross_pay` result
field is that value rounded, and `gross_pay` is never negative — even when
negative bonus or reimbursement adjustments exceed the salary. -/
theorem C10_gross_floored (a : CalcInputs) :
    gross a = max 0 (a.employee.monthly_salary + a.bonus + a.reimbursements) ∧
    (calculate_monthly_payroll a).gross_pay = round2 (gross a) ∧
    0 ≤ (calculate_monthly_payroll a).gross_pay :=
  ⟨rfl, rfl, round2_nonneg _ (gross_nonneg a)⟩

/-- Claim C1 (amended): for every call of `calculate_monthly_payroll`, each
wage-base computation (Social Security, FUTA, SUTA) satisfies
`taxable_this_period + ytd ≤ wage_base` provided the supplied YTD wages do
not already exceed the wage base, and yields `taxable_this_period = 0`
whenever `ytd ≥ wage_base`. -/
theorem C1_wage_base_cap (a : CalcInputs) :
    (a.ytd_ss_wages ≤ a.tax_data.rates.social_security.wage_base →
      (calculate_monthly_payroll a).calculation_trace.steps.ss_taxable_wages + a.ytd_ss_wages
        ≤ a.tax_data.rates.social_security.wage_base) ∧
    (a.tax_data.rates.social_security.wage_base ≤ a.ytd_ss_wages →
      (calculate_monthly_payroll a).calculation_trace.steps.ss_taxable_wages = 0) ∧
    (a.ytd_futa_wages ≤ a.tax_data.rates.futa.wage_base →
      (calculate_monthly_payroll a).calculation_trace.steps.futa_taxable_wages + a.ytd_futa_wages
        ≤ a.tax_data.rates.futa.wage_base) ∧
    (a.tax_data.rates.futa.wage_base ≤ a.ytd_futa_wages →
      (calculate_monthly_payroll a).calculation_trace.steps.futa_taxable_wages = 0) ∧
    (a.ytd_suta_wages ≤ a.tax_data.rates.suta_wage_base →
      (calculate_monthly_payroll a).calculation_trace.steps.suta_taxable_wages + a.ytd_suta_wages
        ≤ a.tax_data.rates.suta_wage_base) ∧
    (a.tax_data.rates.suta_wage_base ≤ a.ytd_suta_wages →
      (calculate_monthly_payroll a).calculation_trace.steps.suta_taxable_wages = 0) := by
  refine ⟨fun h => ?_, fun h => ?_, fun h => ?_, fun h => ?_, fun h => ?_, fun h => ?_⟩
  · exact capped_add_le _ _ _ h
  · exact capped_eq_zero _ _ _ (taxable_wages_nonneg a) h
  · exact capped_add_le _ _ _ h
  · exact capped_eq_zero _ _ _ (taxable_wages_nonneg a) h
  · exact capped_add_le _ _ _ h
  · exact capped_eq_zero _ _ _ (taxable_wages_nonneg a) h

/-- Witness for C1: at the baseline inputs (YTD 0 below every base) the cap
inequality holds for all three taxes, and at inputs whose YTD sits at each
wage base the taxable amounts are all 0. -/
theorem C1_wage_base_cap_witness :
    ((calculate_monthly_payroll sampleInputs).calculation_trace.steps.ss_taxable_wages
        + sampleInputs.ytd_ss_wages ≤ sampleInputs.tax_data.rates.social_security.wage_base) ∧
    ((calculate_monthly_payroll capExhaustedInputs).calculation_trace.steps.ss_taxable_wages = 0) ∧
    ((calculate_monthly_payroll capExhaustedInputs).calculation_trace.steps.futa_taxable_wages = 0) ∧
    ((calculate_monthly_payroll capExhaustedInputs).calculation_trace.steps.suta_taxable_wages = 0) :=
  ⟨(C1_wage_base_cap sampleInputs).1
      (by norm_num [sampleInputs, sampleData]),
   (C1_wage_base_cap capExhaustedInputs).2.1
      (by norm_num [capExhaustedInputs, sampleInputs, sampleData]),
   (C1_wage_base_cap capExhaustedInputs).2.2.2.1
      (by norm_num [capExhaustedInputs, sampleInputs, sampleData]),
   (C1_wage_base_cap capExhaustedInputs).2.2.2.2.2
      (by norm_num [capExhaustedInputs, sampleInputs, sampleData])⟩

/-- Counterexample for C1 as stated: when the caller supplies a Social
Security YTD (200000) already above the wage base (176100), the computed
`taxable_this_period` (0) plus the YTD exceeds the wage base. -/
theorem C1_counterexample :
    ¬ ((calculate_monthly_payroll cexCapInputs).calculation_trace.steps.ss_taxable_wages
        + cexCapInputs.ytd_ss_wages ≤ cexCapInputs.tax_data.rates.social_security.wage_base) := by
  have hz : (calculate_monthly_payroll cexCapInputs).calculation_trace.steps.ss_taxable_wages = 0 :=
    capped_eq_zero _ _ _ (taxable_wages_nonneg cexCapInputs)
      (by norm_num [cexCapInputs, sampleInputs, sampleData])
  rw [hz]
  norm_num [cexCapInputs, sampleInputs, sampleData]

/-- Claim C2: for every filing-status threshold, YTD Medicare wages ≥ 0 and
the period's taxable wages, the Additional Medicare base computed by
`calculate_monthly_payroll` equals the entire period's taxable wages whenever
the YTD is already at or above the threshold, and the additional Medicare
tax is exactly 0 whenever YTD + period wages stay at or below the threshold. -/
theorem C2_additional_medicare (a : CalcInputs) (hy : 0 ≤ a.ytd_medicare_wages) :
    (additional_threshold a ≤ a.ytd_medicare_wages →
      (calculate_monthly_payroll a).calculation_trace.steps.additional_medicare_taxable_wages
        = (calculate_monthly_payroll a).calculation_trace.steps.taxable_wages) ∧
    (a.ytd_medicare_wages + (calculate_monthly_payroll a).calculation_trace.steps.taxable_wages
        ≤ additional_threshold a →
      (calculate_monthly_payroll a).additional_medicare_ee = 0) := by
  have hp := taxable_wages_nonneg a
  constructor
  · intro h
    show addl_base a = taxable_wages a
    unfold addl_base
    rw [max_eq_right (by linarith), max_eq_right (by linarith)]
    ring
  · intro h
    have h' : a.ytd_medicare_wages + taxable_wages a ≤ additional_threshold a := h
    have hb : addl_base a = 0 := by
      unfold addl_base
      rw [max_eq_left (by linarith), max_eq_left (by linarith)]
      ring
    have hz : additional_medicare_ee a = 0 := by
      unfold additional_medicare_ee
      rw [hb]
      simp
    show round2 (additional_medicare_ee a) = 0
    rw [hz, round2_zero]

/-- Witness for C2: with YTD Medicare wages 250000 above the 200000 threshold
the additional-Medicare base is the whole period's wages; with YTD 0 and
period wages 6000 the additional Medicare tax is 0. -/
theorem C2_additional_medicare_witness :
    ((calculate_monthly_payroll aboveThresholdInputs).calculation_trace.steps.additional_medicare_taxable_wages
      = (calculate_monthly_payroll aboveThresholdInputs).calculation_trace.steps.taxable_wages) ∧
    (calculate_monthly_payroll sampleInputs).additional_medicare_ee = 0 :=
  ⟨(C2_additional_medicare aboveThresholdInputs
      (by norm_num [aboveThresholdInputs, sampleInputs])).1
      (by show additional_threshold aboveThresholdInputs ≤ (250000 : ℚ)
          norm_num [additional_threshold, aboveThresholdInputs, sampleInputs, sampleData]),
   (C2_additional_medicare sampleInputs (by norm_num [sampleInputs])).2
      (by show sampleInputs.ytd_medicare_wages + taxable_wages sampleInputs
            ≤ additional_threshold sampleInputs
          norm_num [taxable_wages, gross, additional_threshold, sampleInputs, sampleEmployee,
            sampleData, max_def])⟩

/-- Claim C3: every monetary output of `calculate_monthly_payroll` is
`round2` of the corresponding unrounded quantity, `round2` always lands on a
whole number of cents, and on every value lying exactly half way between two
cents it rounds away from the smaller cent (to `(k+1)/100`, never the
banker's-rounding result `k/100` for even `k`). -/
theorem C3_round_half_up :
    (∀ v : ℚ, ∃ m : ℤ, round2 v = (m : ℚ) / 100) ∧
    (∀ k : ℤ, round2 (((2 * k + 1 : ℤ) : ℚ) / 200) = ((k + 1 : ℤ) : ℚ) / 100) ∧
    (∀ a : CalcInputs,
      (calculate_monthly_payroll a).gross_pay = round2 (gross a) ∧
      (calculate_monthly_payroll a).federal_withholding = round2 (federal a) ∧
      (calculate_monthly_payroll a).social_security_ee = round2 (social_security_ee a) ∧
      (calculate_monthly_payroll a).medicare_ee = round2 (medicare_ee a) ∧
      (calculate_monthly_payroll a).additional_medicare_ee = round2 (additional_medicare_ee a) ∧
      (calculate_monthly_payroll a).social_security_er = round2 (social_security_er a) ∧
      (calculate_monthly_payroll a).medicare_er = round2 (medicare_er a) ∧
      (calculate_monthly_payroll a).futa_er = round2 (futa_er a) ∧
      (calculate_monthly_payroll a).suta_er = round2 (suta_er a) ∧
      (calculate_monthly_payroll a).net_pay = round2 (net a)) := by
  refine ⟨fun v => ⟨roundHalfEven (100 * (v + 1/1000000000)), rfl⟩, fun k => ?_,
    fun a => ⟨rfl, rfl, rfl, rfl, rfl, rfl, rfl, rfl, rfl, rfl⟩⟩
  have h1 : (k : ℚ) + 1/2 < 100 * (((2 * k + 1 : ℤ) : ℚ) / 200 + 1/1000000000) := by
    push_cast
    linarith
  have h2 : 100 * (((2 * k + 1 : ℤ) : ℚ) / 200 + 1/1000000000) < (k : ℚ) + 1 := by
    push_cast
    linarith
  rw [round2_eq_of_half_lt _ k h1 h2]
  push_cast
  ring

/-- Claim C5 (amended): the per-period federal withholding equals `round2` of
the annual tax after the dependents credit divided by the periods per year
plus the extra withholding; it is nonnegative whenever the extra withholding
is nonnegative, but no floor at 0 is applied, so a negative extra
withholding can drive it negative. -/
theorem C5_federal_withholding (a : CalcInputs) :
    (calculate_monthly_payroll a).federal_withholding
      = round2 (fit_annual_after_step3 a / (PERIODS_PER_YEAR a.employee.pay_frequency : ℚ)
          + a.employee.w4_extra_withholding) ∧
    (0 ≤ a.employee.w4_extra_withholding →
      0 ≤ (calculate_monthly_payroll a).federal_withholding) := by
  refine ⟨rfl, fun h => ?_⟩
  show 0 ≤ round2 (federal a)
  refine round2_nonneg _ ?_
  have h1 : 0 ≤ fit_annual_after_step3 a := le_max_left _ _
  have h2 := periods_pos a.employee.pay_frequency
  exact add_nonneg (div_nonneg h1 h2.le) h

/-- Witness for C5: the baseline employee has extra withholding 0, so the
federal withholding is nonnegative. -/
theorem C5_federal_withholding_witness :
    0 ≤ (calculate_monthly_payroll sampleInputs).federal_withholding :=
  (C5_federal_withholding sampleInputs).2 (by norm_num [sampleInputs, sampleEmployee])

/-- Counterexample for C5 as stated: with zero salary and extra withholding
−50 the federal withholding comes out at −50, so it is not floored at 0. -/
theorem C5_counterexample :
    (calculate_monthly_payroll cex5Inputs).federal_withholding < 0 := by
  have h : federal cex5Inputs = -50 := by
    norm_num [federal, fit_annual_after_step3, fit_annual_before_credits, fit_taxable,
      annualized, taxable_wages, gross, annual_fit_from_brackets, fitLoop,
      cex5Inputs, sampleInputs, sampleEmployee, sampleData, sampleFit, sampleBrackets,
      PERIODS_PER_YEAR, max_def, min_def]
  show round2 (federal cex5Inputs) < 0
  rw [h, round2_eq_of_lt_half (-50) (-5000) (by norm_num) (by norm_num)]
  norm_num

/-- Claim C8 (amended): every monetary result field is re-derivable from the
calculation trace together with the tax rates (and the company SUTA rate);
`gross_pay` and `federal_withholding` need the trace alone. -/
theorem C8_trace_rederivable (a : CalcInputs) :
    (calculate_monthly_payroll a).gross_pay
      = round2 ((calculate_monthly_payroll a).calculation_trace.steps.gross_pay) ∧
    (calculate_monthly_payroll a).federal_withholding
      = round2 ((calculate_monthly_payroll a).calculation_trace.steps.fit_period_withholding) ∧
    (calculate_monthly_payroll a).social_security_ee
      = round2 ((calculate_monthly_payroll a).calculation_trace.steps.ss_taxable_wages
          * a.tax_data.rates.social_security.employee_rate) ∧
    (calculate_monthly_payroll a).social_security_er
      = round2 ((calculate_monthly_payroll a).calculation_trace.steps.ss_taxable_wages
          * a.tax_data.rates.social_security.employer_rate) ∧
    (calculate_monthly_payroll a).medicare_ee
      = round2 ((calculate_monthly_payroll a).calculation_trace.steps.medicare_taxable_wages
          * a.tax_data.rates.medicare.employee_rate) ∧
    (calculate_monthly_payroll a).medicare_er
      = round2 ((calculate_monthly_payroll a).calculation_trace.steps.medicare_taxable_wages
          * a.tax_data.rates.medicare.employer_rate) ∧
    (calculate_monthly_payroll a).additional_medicare_ee
      = round2 (max 0 ((calculate_monthly_payroll a).calculation_trace.steps.additional_medicare_taxable_wages)
          * a.tax_data.rates.medicare.additional_employee_rate) ∧
    (calculate_monthly_payroll a).futa_er
      = round2 ((calculate_monthly_payroll a).calculation_trace.steps.futa_taxable_wages
          * a.tax_data.rates.futa.employer_rate) ∧
    (calculate_monthly_payroll a).suta_er
      = round2 ((calculate_monthly_payroll a).calculation_trace.steps.suta_taxable_wages
          * a.company_suta_rate_decimal) ∧
    (calculate_monthly_payroll a).net_pay
      = round2 ((calculate_monthly_payroll a).calculation_trace.steps.gross_pay
          - ((calculate_monthly_payroll a).calculation_trace.steps.fit_period_withholding
            + (calculate_monthly_payroll a).calculation_trace.steps.ss_taxable_wages
                * a.tax_data.rates.social_security.employee_rate
            + (calculate_monthly_payroll a).calculation_trace.steps.medicare_taxable_wages
                * a.tax_data.rates.medicare.employee_rate
            + max 0 ((calculate_monthly_payroll a).calculation_trace.steps.additional_medicare_taxable_wages)
                * a.tax_data.rates.medicare.additional_employee_rate)
          - (calculate_monthly_payroll a).calculation_trace.inputs.deductions) :=
  ⟨rfl, rfl, rfl, rfl, rfl, rfl, rfl, rfl, rfl, rfl⟩

/-- Counterexample for C8 as stated: two tax configurations that differ only
in the Social Security employee rate produce identical calculation traces
but different `social_security_ee` results, so that result field is not a
function of the trace alone. -/
theorem C8_counterexample :
    (calculate_monthly_payroll sampleInputs).calculation_trace
      = (calculate_monthly_payroll cex8Inputs).calculation_trace ∧
    (calculate_monthly_payroll sampleInputs).social_security_ee
      ≠ (calculate_monthly_payroll cex8Inputs).social_security_ee := by
  constructor
  · rfl
  · have h1 : social_security_ee sampleInputs = 372 := by
      norm_num [social_security_ee, ss_taxable, ss_remaining, taxable_wages, gross,
        sampleInputs, sampleEmployee, sampleData, max_def, min_def]
    have h2 : social_security_ee cex8Inputs = 420 := by
      norm_num [social_security_ee, ss_taxable, ss_remaining, taxable_wages, gross,
        cex8Inputs, cex8Data, sampleInputs, sampleEmployee, sampleData, max_def, min_def]
    show round2 (social_security_ee sampleInputs) ≠ round2 (social_security_ee cex8Inputs)
    rw [h1, h2, round2_eq_of_lt_half 372 37200 (by norm_num) (by norm_num),
      round2_eq_of_lt_half 420 42000 (by norm_num) (by norm_num)]
    norm_num

/-! ### The bracket walk agrees with the reference marginal-rate computation -/

theorem sub_min_max (x l : ℚ) (hl : 0 ≤ l) :
    max 0 (x - min (max 0 x) l) = max 0 (x - l) := by
  simp only [max_def, min_def]
  split_ifs <;> linarith

theorem taxed_eq (x l u : ℚ) (hl : 0 ≤ l) (hlu : l ≤ u) :
    min (max 0 (x - min (max 0 x) l)) (max 0 (u - l)) = max 0 (min x u - l) := by
  simp only [max_def, min_def]
  split_ifs <;> linarith

theorem rem_eq (x l u : ℚ) (hl : 0 ≤ l) (hlu : l ≤ u) :
    x - min (max 0 x) l - min (max 0 (x - min (max 0 x) l)) (max 0 (u - l))
      = x - min (max 0 x) u := by
  simp only [max_def, min_def]
  split_ifs <;> linarith

theorem rem_nonpos_iff (x u : ℚ) (hu : 0 ≤ u) :
    x - min (max 0 x) u ≤ 0 ↔ x ≤ u := by
  simp only [max_def, min_def]
  split_ifs <;> constructor <;> intro h <;> linarith

theorem spec_go_eq_zero (bs : List Bracket) : ∀ l x : ℚ, 0 ≤ l → x ≤ l →
    bracketsWF l bs = true → spec_marginal_fit_go l x bs = 0 := by
  induction bs with
  | nil => intro l x _ _ _; rfl
  | cons b rest ih =>
    intro l x hl hx hwf
    cases hb : b.up_to with
    | none =>
      simp only [spec_marginal_fit_go, hb]
      rw [max_eq_left (by linarith), mul_zero]
    | some u =>
      simp only [bracketsWF, hb, Bool.and_eq_true, decide_eq_true_eq] at hwf
      obtain ⟨hlu, hwf'⟩ := hwf
      simp only [spec_marginal_fit_go, hb]
      rw [ih u x (le_trans hl hlu) (le_trans hx hlu) hwf']
      have hxm : min x u - l ≤ 0 := by
        have := min_le_left x u
        linarith
      rw [max_eq_left hxm, mul_zero, add_zero]

theorem fitLoop_eq_spec_go (bs : List Bracket) : ∀ l x : ℚ, 0 ≤ l →
    bracketsWF l bs = true →
    fitLoop l (x - min (max 0 x) l) bs = spec_marginal_fit_go l x bs := by
  induction bs with
  | nil => intro l x _ hwf; simp [bracketsWF] at hwf
  | cons b rest ih =>
    intro l x hl hwf
    cases hb : b.up_to with
    | none =>
      simp only [fitLoop, spec_marginal_fit_go, hb]
      rw [sub_min_max x l hl, mul_comm]
    | some u =>
      simp only [bracketsWF, hb, Bool.and_eq_true, decide_eq_true_eq] at hwf
      obtain ⟨hlu, hwf'⟩ := hwf
      have hu : 0 ≤ u := le_trans hl hlu
      simp only [fitLoop, spec_marginal_fit_go, hb]
      rw [rem_eq x l u hl hlu, taxed_eq x l u hl hlu, mul_comm]
      by_cases hc : x - min (max 0 x) u ≤ 0
      · rw [if_pos hc, spec_go_eq_zero rest u x hu ((rem_nonpos_iff x u hu).1 hc) hwf']
      · rw [if_neg hc, ih u x hu hwf']

theorem fitLoop_eq_spec (x : ℚ) (bs : List Bracket) (hwf : bracketsWF 0 bs = true) :
    fitLoop 0 x bs = spec_marginal_fit_go 0 x bs := by
  have h := fitLoop_eq_spec_go bs 0 x le_rfl hwf
  rwa [min_eq_right (le_max_left 0 x), sub_zero] at h

theorem spec_go_nonneg : ∀ bs : List Bracket, ratesNonneg bs = true →
    ∀ l x : ℚ, 0 ≤ spec_marginal_fit_go l x bs := by
  intro bs
  induction bs with
  | nil => intro _ l x; simp [spec_marginal_fit_go]
  | cons b rest ih =>
    intro hr l x
    simp only [ratesNonneg, List.all_cons, Bool.and_eq_true, decide_eq_true_eq] at hr
    obtain ⟨hb, hrest⟩ := hr
    cases hb2 : b.up_to with
    | none =>
      simp only [spec_marginal_fit_go, hb2]
      exact mul_nonneg hb (le_max_left _ _)
    | some u =>
      simp only [spec_marginal_fit_go, hb2]
      exact add_nonneg (mul_nonneg hb (le_max_left _ _)) (ih hrest u x)

theorem annual_eq_spec (x : ℚ) (bs : List Bracket) (hwf : bracketsWF 0 bs = true)
    (hr : ratesNonneg bs = true) :
    annual_fit_from_brackets x bs = spec_marginal_fit x bs := by
  unfold annual_fit_from_brackets spec_marginal_fit
  rw [fitLoop_eq_spec x bs hwf]
  exact max_eq_right (spec_go_nonneg bs hr 0 x)

theorem spec_go_mono : ∀ bs : List Bracket, ratesNonneg bs = true →
    ∀ (l x1 x2 : ℚ), x1 ≤ x2 →
    spec_marginal_fit_go l x1 bs ≤ spec_marginal_fit_go l x2 bs := by
  intro bs
  induction bs with
  | nil => intro _ l x1 x2 _; simp [spec_marginal_fit_go]
  | cons b rest ih =>
    intro hr l x1 x2 h
    simp only [ratesNonneg, List.all_cons, Bool.and_eq_true, decide_eq_true_eq] at hr
    obtain ⟨hb, hrest⟩ := hr
    cases hb2 : b.up_to with
    | none =>
      simp only [spec_marginal_fit_go, hb2]
      exact mul_le_mul_of_nonneg_left (max_le_max le_rfl (sub_le_sub_right h _)) hb
    | some u =>
      simp only [spec_marginal_fit_go, hb2]
      exact add_le_add
        (mul_le_mul_of_nonneg_left (max_le_max le_rfl (sub_le_sub_right (min_le_min h le_rfl) _)) hb)
        (ih hrest u x1 x2 h)

/-- Claim C4 (amended): on every contiguous ascending bracket table with
nonnegative rates and an unbounded last bracket, `_annual_fit_from_brackets`
equals the reference marginal-rate computation, and yields 0 on every
income ≤ 0. -/
theorem C4_marginal_fit (bs : List Bracket) (hwf : bracketsWF 0 bs = true)
    (hr : ratesNonneg bs = true) (x : ℚ) :
    annual_fit_from_brackets x bs = spec_marginal_fit x bs ∧
    (x ≤ 0 → annual_fit_from_brackets x bs = 0) := by
  refine ⟨annual_eq_spec x bs hwf hr, fun hx => ?_⟩
  rw [annual_eq_spec x bs hwf hr]
  exact spec_go_eq_zero bs 0 x le_rfl hx hwf

/-- Witness for C4: the sample three-bracket table agrees with the reference
computation at 5, and yields 0 at −1. -/
theorem C4_marginal_fit_witness :
    annual_fit_from_brackets 5 sampleBrackets = spec_marginal_fit 5 sampleBrackets ∧
    annual_fit_from_brackets (-1) sampleBrackets = 0 := by
  have hwf : bracketsWF 0 sampleBrackets = true := by norm_num [bracketsWF, sampleBrackets]
  have hr : ratesNonneg sampleBrackets = true := by norm_num [ratesNonneg, sampleBrackets]
  exact ⟨(C4_marginal_fit sampleBrackets hwf hr 5).1,
    (C4_marginal_fit sampleBrackets hwf hr (-1)).2 (by norm_num)⟩

/-- Counterexample for C4 as stated: on the well-formed table with rates
1/10, 2/10, 3/10 and bounds 10, 20, ∞, the income 30 spans all three
brackets, yet the marginal tax (6) equals a single bracket's rate (2/10)
applied to the whole amount. -/
theorem C4_counterexample :
    bracketsWF 0 cex4Brackets = true ∧
    ratesNonneg cex4Brackets = true ∧
    annual_fit_from_brackets 30 cex4Brackets = 2/10 * 30 := by
  refine ⟨by norm_num [bracketsWF, cex4Brackets],
    by norm_num [ratesNonneg, cex4Brackets], ?_⟩
  norm_num [annual_fit_from_brackets, fitLoop, cex4Brackets, max_def, min_def]

/-- Claim C9 (amended): on every contiguous ascending bracket table with
nonnegative rates, the annual FIT computation is monotone non-decreasing in
income. -/
theorem C9_fit_monotone (bs : List Bracket) (hwf : bracketsWF 0 bs = true)
    (hr : ratesNonneg bs = true) (x1 x2 : ℚ) (h0 : 0 ≤ x1) (h12 : x1 ≤ x2) :
    annual_fit_from_brackets x1 bs ≤ annual_fit_from_brackets x2 bs := by
  rw [annual_eq_spec x1 bs hwf hr, annual_eq_spec x2 bs hwf hr]
  exact spec_go_mono bs hr 0 x1 x2 h12

/-- Witness for C9: on the sample table the annual tax at 0 is at most the
annual tax at 20000. -/
theorem C9_fit_monotone_witness :
    annual_fit_from_brackets 0 sampleBrackets ≤ annual_fit_from_brackets 20000 sampleBrackets := by
  have hwf : bracketsWF 0 sampleBrackets = true := by norm_num [bracketsWF, sampleBrackets]
  have hr : ratesNonneg sampleBrackets = true := by norm_num [ratesNonneg, sampleBrackets]
  exact C9_fit_monotone sampleBrackets hwf hr 0 20000 le_rfl (by norm_num)

/-- Counterexample for C9 as stated: on the contiguous ascending table with
a negative top rate the annual tax drops from 5 (at income 10) to 3 (at
income 30). -/
theorem C9_counterexample :
    bracketsWF 0 cex9Brackets = true ∧
    ¬ (annual_fit_from_brackets 10 cex9Brackets ≤ annual_fit_from_brackets 30 cex9Brackets) := by
  constructor
  · norm_num [bracketsWF, cex9Brackets]
  · have h1 : annual_fit_from_brackets 10 cex9Brackets = 5 := by
      norm_num [annual_fit_from_brackets, fitLoop, cex9Brackets, max_def, min_def]
    have h2 : annual_fit_from_brackets 30 cex9Brackets = 3 := by
      norm_num [annual_fit_from_brackets, fitLoop, cex9Brackets, max_def, min_def]
    rw [h1, h2]
    norm_num

/-! ### Loader and validator claims -/

theorem check_statuses_ok_iff (fit : Json) : ∀ l : List String,
    check_statuses fit l = .ok () ↔ ∀ s ∈ l, status_ok fit s = true := by
  intro l
  induction l with
  | nil => simp [check_statuses]
  | cons s rest ih =>
    cases h : fit.lookup s with
    | none =>
      simp only [check_statuses, h]
      constructor
      · intro hcontra
        exact absurd hcontra (by simp)
      · intro hall
        have := hall s (List.mem_cons_self s rest)
        rw [status_ok, h] at this
        cases this
    | some cfg =>
      simp only [check_statuses, h]
      by_cases hc : (cfg.hasKey "standard_deduction" && cfg.hasKey "brackets") = true
      · rw [if_pos hc, ih]
        constructor
        · intro hall t ht
          rcases List.mem_cons.mp ht with rfl | ht'
          · rw [status_ok, h]
            exact hc
          · exact hall t ht'
        · intro hall t ht
          exact hall t (List.mem_cons_of_mem _ ht)
      · rw [if_neg hc]
        constructor
        · intro hcontra
          exact absurd hcontra (by simp)
        · intro hall
          have := hall s (List.mem_cons_self s rest)
          rw [status_ok, h] at this
          exact absurd this hc

theorem check_statuses_dichotomy (fit : Json) (l : List String) :
    (∃ e, check_statuses fit l = .error e) ∨ check_statuses fit l = .ok () := by
  cases h : check_statuses fit l with
  | error e => exact Or.inl ⟨e, rfl⟩
  | ok u => cases u; exact Or.inr rfl

theorem missing_isEmpty_iff (rates : Json) : ∀ keys : List String,
    ((keys.filter fun k => !(rates.hasKey k)).isEmpty = true)
      ↔ ∀ k ∈ keys, rates.hasKey k = true := by
  intro keys
  induction keys with
  | nil => simp
  | cons k rest ih =>
    cases hk : rates.hasKey k with
    | true => simp [List.filter_cons, hk, ih]
    | false => simp [List.filter_cons, hk]

/-- Claim C6: `load_tax_year_data` never partially succeeds — it raises a
typed error when any of the three required files is absent, when a required
rate key is absent, or when a supported filing status lacks a FIT table with
both required fields; and any configuration it returns contains all four
rate keys and a complete per-status FIT table. -/
theorem C6_load_all_or_nothing (year : ℤ) (pay_frequency : String)
    (rates_file metadata_file fit_file : Option Json) :
    ((rates_file = none ∨ metadata_file = none ∨ fit_file = none) →
      ∃ e, load_tax_year_data year pay_frequency rates_file metadata_file fit_file = .error e) ∧
    (∀ rates, rates_file = some rates →
      ∀ key ∈ REQUIRED_RATE_KEYS, rates.hasKey key = false →
      ∃ e, load_tax_year_data year pay_frequency rates_file metadata_file fit_file = .error e) ∧
    (∀ fit, fit_file = some fit →
      ∀ status ∈ FILING_STATUS_KEYS, status_ok fit status = false →
      ∃ e, load_tax_year_data year pay_frequency rates_file metadata_file fit_file = .error e) ∧
    (∀ cfg, load_tax_year_data year pay_frequency rates_file metadata_file fit_file = .ok cfg →
      complete_config cfg = true) := by
  rcases rates_file with _ | rates
  · refine ⟨fun _ => ⟨_, rfl⟩, ?_, ?_, ?_⟩
    · intro rates hr
      cases hr
    · intro fit hf status hs hfalse
      exact ⟨_, rfl⟩
    · intro cfg h
      cases h
  rcases metadata_file with _ | metadata
  · refine ⟨fun _ => ⟨_, rfl⟩, ?_, ?_, ?_⟩
    · intro rates' hr key hkey hfalse
      exact ⟨_, rfl⟩
    · intro fit hf status hs hfalse
      exact ⟨_, rfl⟩
    · intro cfg h
      cases h
  rcases fit_file with _ | fit
  · refine ⟨fun _ => ⟨_, rfl⟩, ?_, ?_, ?_⟩
    · intro rates' hr key hkey hfalse
      exact ⟨_, rfl⟩
    · intro fit' hf
      cases hf
    · intro cfg h
      cases h
  refine ⟨?_, ?_, ?_, ?_⟩
  · rintro (h | h | h) <;> cases h
  · intro rates' hr key hkey hfalse
    cases hr
    have hnot : ¬ ((REQUIRED_RATE_KEYS.filter fun k => !(rates.hasKey k)).isEmpty = true) := by
      intro hI
      have := (missing_isEmpty_iff rates REQUIRED_RATE_KEYS).1 hI key hkey
      rw [hfalse] at this
      cases this
    exact ⟨_, by simp only [load_tax_year_data]; rw [if_neg hnot]⟩
  · intro fit' hf status hs hfalse
    cases hf
    by_cases hie : (REQUIRED_RATE_KEYS.filter fun k => !(rates.hasKey k)).isEmpty = true
    · have hne : check_statuses fit FILING_STATUS_KEYS ≠ .ok () := by
        intro hok
        have := (check_statuses_ok_iff fit FILING_STATUS_KEYS).1 hok status hs
        rw [hfalse] at this
        cases this
      rcases check_statuses_dichotomy fit FILING_STATUS_KEYS with ⟨e, he⟩ | hok
      · refine ⟨e, ?_⟩
        simp only [load_tax_year_data]
        rw [if_pos hie, he]
      · exact absurd hok hne
    · exact ⟨_, by simp only [load_tax_year_data]; rw [if_neg hie]⟩
  · intro cfg h
    simp only [load_tax_year_data] at h
    by_cases hie : (REQUIRED_RATE_KEYS.filter fun k => !(rates.hasKey k)).isEmpty = true
    · rw [if_pos hie] at h
      cases hc : check_statuses fit FILING_STATUS_KEYS with
      | error e =>
        rw [hc] at h
        simp at h
      | ok u =>
        cases u
        rw [hc] at h
        have h' : Except.ok (ε := String)
            ({ year := year, metadata := metadata, rates := rates, fit := fit,
               files := ["data/tax/" ++ toString year ++ "/metadata.json",
                         "data/tax/" ++ toString year ++ "/rates.json",
                         "data/tax/" ++ toString year ++ "/fit/" ++ pay_frequency
                           ++ "/percentage_method.json"] } : LoadedTaxData) = .ok cfg := h
        have hcfg := Except.ok.inj h'
        rw [complete_config, ← hcfg]
        have hkeys := (missing_isEmpty_iff rates REQUIRED_RATE_KEYS).1 hie
        have hstat := (check_statuses_ok_iff fit FILING_STATUS_KEYS).1 hc
        simp only [Bool.and_eq_true, List.all_eq_true]
        exact ⟨fun k hk => hkeys k hk, fun s hs => hstat s hs⟩
    · rw [if_neg hie] at h
      simp at h

/-- Witness for C6: with a missing `rates.json` the loader raises; with all
three files structurally valid it returns a complete configuration. -/
theorem C6_load_all_or_nothing_witness :
    (∃ e, load_tax_year_data 2025 "monthly" none (some bugMetadata) (some goodFit) = .error e) ∧
    (∀ cfg, load_tax_year_data 2025 "monthly" (some goodRates) (some bugMetadata) (some goodFit)
        = .ok cfg → complete_config cfg = true) :=
  ⟨(C6_load_all_or_nothing 2025 "monthly" none (some bugMetadata) (some goodFit)).1
      (Or.inl rfl),
   (C6_load_all_or_nothing 2025 "monthly" (some goodRates) (some bugMetadata) (some goodFit)).2.2.2⟩

/-- Claim C7, exhibited against the code: with `metadata.json` parseable and
carrying all four required fields, a valid method and matching notes, a
matching `validation.json`, `rates.json` present and all five FIT files
present, but `metadata.json` lacking `tax_year`, `validate_tax_year_data`
returns `ok = false` with an empty `errors` list — the missing required
field is recorded only as a warning (lines 66-67 of `tax_validation.py`),
contradicting "ok is false iff errors is non-empty". -/
theorem C7_blocking_warning :
    (validate_tax_year_data 2025 bugWorld).ok = false ∧
    (validate_tax_year_data 2025 bugWorld).errors = [] ∧
    (validate_tax_year_data 2025 bugWorld).warnings
      = ["metadata.json is missing required field tax_year"] :=
  ⟨rfl, rfl, rfl⟩

end Payroll
